import Mathlib

/-!
Shallow embedding of the VHP client-side verification pipeline
(lib/verification/simpleVerificationService.ts, the step modules under
lib/verification/steps, the TensorFlow helpers in
lib/verification/helpers/tensorflowHumanDetection.ts, and the
ai-challenge-check API route).  Numeric scores are modelled as rationals;
JavaScript Math.round, Math.min, Math.max and Math.floor are modelled
explicitly.  Opaque collaborators (ML detectors, the vision judge, image
decoding) enter as explicit inputs; fallible code is modelled with Except
and every catch-all handler is an explicit total wrapper.
-/

/-- JavaScript Math.round on rationals: floor of x + 1/2 (half rounds up). -/
def jsRound (q : ℚ) : ℚ := ((⌊q + 1/2⌋ : ℤ) : ℚ)

/-- JavaScript Math.max on two rationals. -/
def jsMax (a b : ℚ) : ℚ := if a ≤ b then b else a

/-- JavaScript Math.min on two rationals. -/
def jsMin (a b : ℚ) : ℚ := if b ≤ a then b else a

/-- JavaScript-style prefix test on strings, by character list (the code
uses String.prototype.startsWith); defined over the character lists so that
concrete instances evaluate by kernel reduction. -/
def listStartsWith : List Char → List Char → Bool
  | _, [] => true
  | [], _ :: _ => false
  | c :: cs, d :: ds => (c = d) && listStartsWith cs ds

def strStartsWith (s p : String) : Bool := listStartsWith s.data p.data

/-! ## Remote Judgment Adapter: score-to-decision mapping

From processAIResult in lib/verification/steps/humanSelfieCheck.ts
(lines 364-411) and the identical logic inlined in
lib/verification/steps/aiChallengeCheck.ts (lines 84-116). -/

structure AIDecision where
  passed : Bool
  challengeCompleted : Bool
  confidence : ℚ
deriving DecidableEq, Repr

/-- Decision part of processAIResult: the if/else-if/else ladder on score,
followed by the confidence clamp. -/
def processAIResult (score : ℚ) : AIDecision :=
  let pc : Bool × Bool :=
    if 60 ≤ score then (true, true)
    else if 40 ≤ score then (true, true)
    else (false, false)
  { passed := pc.1
    challengeCompleted := pc.2
    confidence := if pc.1 then jsMax 60 score else jsMin 40 score }

/-! ## Remote judgment API frame-count reduction

From POST in src/app/api/ai-challenge-check/route.ts (lines 137-145). -/

/-- Frames whose index is a multiple of N, in order (frames.filter on index
modulo step). -/
def keepEveryNth (N : ℕ) (l : List String) : List String :=
  (l.enum.filter (fun p => p.1 % N = 0)).map Prod.snd

/-- Frame reduction of the ai-challenge-check route: lists longer than 25
are filtered to indices that are multiples of floor(length/20) and then
truncated to the first 20. -/
def reduceFrames (l : List String) : List String :=
  if 25 < l.length then (keepEveryNth (l.length / 20) l).take 20 else l

/-! ## Video Human-Presence Aggregator

From detectHumanInVideo and generateTimePoints in
lib/verification/helpers/tensorflowHumanDetection.ts (lines 119-266).
The per-frame work (seek, canvas extraction, detectHumanInImage) is opaque
to the aggregation loop; each loop iteration is modelled by a FrameOutcome:
either a per-frame exception, or a frame classification carrying hasHuman
and a confidence. -/

/-- Outcome of one iteration of the detectHumanInVideo frame loop. -/
inductive FrameOutcome where
  | err : FrameOutcome
  | frame : Bool → ℚ → FrameOutcome
deriving DecidableEq, Repr

/-- Mutable loop state of detectHumanInVideo. -/
structure ScanState where
  framesChecked : ℕ
  detectionsCount : ℕ
  consecutiveDetections : ℕ
  maxConfidence : ℚ
  stoppedEarly : Bool
deriving DecidableEq, Repr

def initScan : ScanState :=
  { framesChecked := 0, detectionsCount := 0, consecutiveDetections := 0
    maxConfidence := 0, stoppedEarly := false }

/-- The for-loop of detectHumanInVideo: on a per-frame error the consecutive
counter resets and framesChecked is not incremented; on a frame, framesChecked
increments, then a positive detection bumps the counters and the running max,
breaking as soon as consecutiveDetections reaches the threshold, while a
negative detection resets the consecutive counter. -/
def scanGo (threshold : ℕ) : ScanState → List FrameOutcome → ScanState
  | s, [] => s
  | s, FrameOutcome.err :: rest =>
      scanGo threshold { s with consecutiveDetections := 0 } rest
  | s, FrameOutcome.frame h c :: rest =>
      let s1 := { s with framesChecked := s.framesChecked + 1 }
      if h then
        let s2 := { s1 with
          detectionsCount := s1.detectionsCount + 1
          consecutiveDetections := s1.consecutiveDetections + 1
          maxConfidence := jsMax s1.maxConfidence c }
        if threshold ≤ s2.consecutiveDetections then
          { s2 with stoppedEarly := true }
        else scanGo threshold s2 rest
      else
        scanGo threshold { s1 with consecutiveDetections := 0 } rest

def scanFrames (threshold : ℕ) (l : List FrameOutcome) : ScanState :=
  scanGo threshold initScan l

/-- Aggregate result of detectHumanInVideo. -/
structure VideoHumanDetectionResult where
  hasHuman : Bool
  confidence : ℚ
  detectionCount : ℕ
  totalFramesChecked : ℕ
  consecutiveDetections : ℕ
  stoppedEarly : Bool
deriving DecidableEq, Repr

/-- Result assembly after the loop (lines 208-235): hasHuman iff any
detection occurred, and confidence min(0.95, maxConfidence + 0.1) when it
did, else 0. -/
def mkVideoDetectionResult (s : ScanState) : VideoHumanDetectionResult :=
  let hasHuman : Bool := decide (0 < s.detectionsCount)
  { hasHuman := hasHuman
    confidence := if hasHuman then jsMin (95/100) (s.maxConfidence + 1/10) else 0
    detectionCount := s.detectionsCount
    totalFramesChecked := s.framesChecked
    consecutiveDetections := s.consecutiveDetections
    stoppedEarly := s.stoppedEarly }

/-- generateTimePoints (lines 256-266), with the implicit bound
timePoints.length < maxFrames as structural fuel: push currentTime while it
stays below duration - 0.1, stepping by the interval. -/
def generateTimePointsGo (duration interval : ℚ) : ℚ → ℕ → List ℚ
  | _, 0 => []
  | t, fuel + 1 =>
      if t < duration - 1/10 then
        t :: generateTimePointsGo duration interval (t + interval) fuel
      else []

def generateTimePoints (duration interval : ℚ) (maxFrames : ℕ) : List ℚ :=
  generateTimePointsGo duration interval 0 maxFrames

/-- Hardcoded fallback time points used when the video duration is falsy,
non-finite, or not positive (line 159). -/
def fallbackTimePoints : List ℚ := [0, 1/2, 1, 3/2, 2, 5/2, 3]

/-- detectHumanInVideo: time-point selection (lines 156-163) followed by the
frame loop over timePoints.slice(0, maxFrames). The video duration is an
Option, none standing for NaN or Infinity; the per-time-point classification
outcomes are supplied by an oracle indexed by loop position. -/
def detectHumanInVideo (duration : Option ℚ) (frameInterval : ℚ)
    (maxFrames consecutiveThreshold : ℕ) (oracle : ℕ → FrameOutcome) :
    VideoHumanDetectionResult :=
  let timePoints :=
    match duration with
    | some d =>
        if 0 < d then generateTimePoints d frameInterval maxFrames
        else fallbackTimePoints
    | none => fallbackTimePoints
  let outs := (List.range (timePoints.take maxFrames).length).map oracle
  mkVideoDetectionResult (scanFrames consecutiveThreshold outs)

/-! ## Human Video Check step result assembly

From runHumanVideoCheck in lib/verification/steps/humanVideoCheck.ts:
pass requires hasHuman and at least one detection; confidence is the
aggregate confidence rescaled to 0-100 (Math.round) when passed, else 0. -/

/-- Result of the Human Video Check step; the human-readable details string
(built from the detection counts by string interpolation) is omitted. -/
structure HumanVideoCheckResult where
  passed : Bool
  confidence : ℚ
  framesChecked : ℕ
  humanFrames : ℕ
  maxConfidence : ℚ
  stoppedEarly : Bool
deriving DecidableEq, Repr

def mkHumanVideoCheckResult (det : VideoHumanDetectionResult) : HumanVideoCheckResult :=
  let passed := det.hasHuman && decide (1 ≤ det.detectionCount)
  { passed := passed
    confidence := if passed then jsRound (det.confidence * 100) else 0
    framesChecked := det.totalFramesChecked
    humanFrames := det.detectionCount
    maxConfidence := det.confidence
    stoppedEarly := det.stoppedEarly }

/-! ## Human Presence Classifier

From detectHumanInImage, detectFacesWithBlazeFace and
detectPersonWithCocoSsd in lib/verification/helpers/tensorflowHumanDetection.ts
(lines 315-546).  The two underlying models are opaque: each detector call is
an Except value carrying either its raw prediction list or a thrown error.
The human-readable details strings (interpolated from counts and scores) are
omitted from the result structure. -/

/-- Bounding box with per-detection confidence. -/
structure Box where
  x : ℚ
  y : ℚ
  width : ℚ
  height : ℚ
  confidence : ℚ
deriving DecidableEq, Repr

structure HumanDetectionResult where
  hasHuman : Bool
  confidence : ℚ
  detectionCount : ℕ
  boundingBoxes : List Box
deriving DecidableEq, Repr

/-- Raw BlazeFace prediction: corner coordinates and an optional probability
(the code substitutes 0.95 when the model omits it). -/
structure FacePred where
  topLeftX : ℚ
  topLeftY : ℚ
  bottomRightX : ℚ
  bottomRightY : ℚ
  probability : Option ℚ
deriving DecidableEq, Repr

/-- Raw COCO-SSD prediction: class label, score, bbox as x, y, width, height. -/
structure CocoPred where
  cls : String
  score : ℚ
  bboxX : ℚ
  bboxY : ℚ
  bboxW : ℚ
  bboxH : ℚ
deriving DecidableEq, Repr

def facePredToBox (p : FacePred) : Box :=
  { x := p.topLeftX, y := p.topLeftY
    width := p.bottomRightX - p.topLeftX
    height := p.bottomRightY - p.topLeftY
    confidence := p.probability.getD (95/100) }

/-- Math.max over the confidences of a detection list; only applied to
nonempty lists in the source (JavaScript would give -Infinity on empty). -/
def maxBoxConfidence : List Box → ℚ
  | [] => 0
  | b :: rest => rest.foldl (fun m f => jsMax m f.confidence) b.confidence

/-- validFaces of detectFacesWithBlazeFace: the first maxFaces predictions,
mapped to boxes, filtered by the confidence threshold. -/
def blazeValidFaces (minConfidence : ℚ) (maxFaces : ℕ)
    (predictions : List FacePred) : List Box :=
  ((predictions.take maxFaces).map facePredToBox).filter
    (fun f => minConfidence ≤ f.confidence)

/-- validSizedFaces of detectFacesWithBlazeFace: faces whose area is at
least 1 percent of the image area. -/
def blazeValidSizedFaces (imageArea : ℚ) (faces : List Box) : List Box :=
  faces.filter (fun f => 1/100 ≤ f.width * f.height / imageArea)

def detectFacesWithBlazeFace (imgWidth imgHeight minConfidence : ℚ)
    (maxFaces : ℕ) (predictions : List FacePred) : HumanDetectionResult :=
  if predictions.isEmpty then
    { hasHuman := false, confidence := 0, detectionCount := 0, boundingBoxes := [] }
  else
    let validFaces := blazeValidFaces minConfidence maxFaces predictions
    if validFaces.isEmpty then
      { hasHuman := false
        confidence := (predictions.head?.bind (fun p => p.probability)).getD 0
        detectionCount := 0
        boundingBoxes := [] }
    else
      let bestConfidence := maxBoxConfidence validFaces
      let validSizedFaces := blazeValidSizedFaces (imgWidth * imgHeight) validFaces
      { hasHuman := !validSizedFaces.isEmpty
        confidence := bestConfidence
        detectionCount := validSizedFaces.length
        boundingBoxes := validSizedFaces }

def cocoBox (p : CocoPred) : Box :=
  { x := p.bboxX, y := p.bboxY, width := p.bboxW, height := p.bboxH
    confidence := p.score }

/-- personDetections of detectPersonWithCocoSsd: class person, score at
least the confidence threshold. -/
def cocoPersonDetections (minConfidence : ℚ) (predictions : List CocoPred) :
    List CocoPred :=
  (predictions.filter (fun p => p.cls = "person")).filter
    (fun p => minConfidence ≤ p.score)

/-- reasonablePersons of detectPersonWithCocoSsd: coverage between 5 and 90
percent of the image. -/
def cocoReasonablePersons (imageArea : ℚ) (persons : List Box) : List Box :=
  persons.filter (fun p =>
    (decide (5/100 ≤ p.width * p.height / imageArea)) &&
    (decide (p.width * p.height / imageArea ≤ 9/10)))

def detectPersonWithCocoSsd (imgWidth imgHeight minConfidence : ℚ)
    (predictions : List CocoPred) : HumanDetectionResult :=
  let personDetections := cocoPersonDetections minConfidence predictions
  if personDetections.isEmpty then
    let allPersons := predictions.filter (fun p => p.cls = "person")
    { hasHuman := false
      confidence := match allPersons with | [] => 0 | p :: _ => p.score
      detectionCount := 0
      boundingBoxes := [] }
  else
    let validPersons := personDetections.map cocoBox
    let bestConfidence := maxBoxConfidence validPersons
    let reasonablePersons := cocoReasonablePersons (imgWidth * imgHeight) validPersons
    { hasHuman := !reasonablePersons.isEmpty
      confidence := bestConfidence
      detectionCount := reasonablePersons.length
      boundingBoxes := reasonablePersons }

/-- Result of the outer catch of detectHumanInImage when the chosen detector
and its fallback both throw. -/
def detectionErrorResult : HumanDetectionResult :=
  { hasHuman := false, confidence := 0, detectionCount := 0, boundingBoxes := [] }

/-- detectHumanInImage: face-first tries BlazeFace, accepting its result only
when hasHuman and confidence at least minConfidence, otherwise falling back to
COCO-SSD; body-first is the mirror image; a throw from the primary falls to
the fallback, a throw from the fallback is caught by the outer handler. -/
def detectHumanInImage (preferFaceDetection : Bool) (minConfidence : ℚ)
    (maxFaces : ℕ) (imgWidth imgHeight : ℚ)
    (facePreds : Except Unit (List FacePred))
    (cocoPreds : Except Unit (List CocoPred)) : HumanDetectionResult :=
  if preferFaceDetection then
    match facePreds with
    | Except.ok ps =>
        let r := detectFacesWithBlazeFace imgWidth imgHeight minConfidence maxFaces ps
        if r.hasHuman && decide (minConfidence ≤ r.confidence) then r
        else
          match cocoPreds with
          | Except.ok qs => detectPersonWithCocoSsd imgWidth imgHeight minConfidence qs
          | Except.error _ => detectionErrorResult
    | Except.error _ =>
        match cocoPreds with
        | Except.ok qs => detectPersonWithCocoSsd imgWidth imgHeight minConfidence qs
        | Except.error _ => detectionErrorResult
  else
    match cocoPreds with
    | Except.ok qs =>
        let r := detectPersonWithCocoSsd imgWidth imgHeight minConfidence qs
        if r.hasHuman && decide (minConfidence ≤ r.confidence) then r
        else
          match facePreds with
          | Except.ok ps => detectFacesWithBlazeFace imgWidth imgHeight minConfidence maxFaces ps
          | Except.error _ => detectionErrorResult
    | Except.error _ =>
        match facePreds with
        | Except.ok ps => detectFacesWithBlazeFace imgWidth imgHeight minConfidence maxFaces ps
        | Except.error _ => detectionErrorResult

/-! ## Step modules

From lib/verification/steps/basicFileCheck.ts, humanSelfieCheck.ts,
humanVideoCheck.ts and aiChallengeCheck.ts.  A blob enters as its declared
MIME type and byte size; image and video decoding is opaque and enters as an
Except carrying either the decoded width and height or the load error; each
step body is an Except value and the step function is the body wrapped in
the catch-all handler of the source. -/

structure BlobMeta where
  type : String
  size : ℕ
deriving DecidableEq, Repr

structure BasicFileCheckResult where
  passed : Bool
  confidence : ℚ
  videoValid : Bool
  photoValid : Bool
deriving DecidableEq, Repr

/-- runBasicFileCheck: MIME-type and size-bound validation of the two blobs;
confidence is binary. -/
def runBasicFileCheck (video photo : BlobMeta) : BasicFileCheckResult :=
  let videoValid := strStartsWith video.type "video/" &&
    decide (1024 ≤ video.size) && decide (video.size ≤ 100 * 1024 * 1024)
  let photoValid := strStartsWith photo.type "image/" &&
    decide (1024 ≤ photo.size) && decide (photo.size ≤ 10 * 1024 * 1024)
  let passed := videoValid && photoValid
  { passed := passed
    confidence := if passed then 100 else 0
    videoValid := videoValid
    photoValid := photoValid }

/-- Result of the Human Selfie Check step; the details string is omitted. -/
structure HumanSelfieCheckResult where
  passed : Bool
  confidence : ℚ
  faceDetected : Bool
  faceConfidence : ℚ
  faceSize : ℚ
deriving DecidableEq, Repr

/-- The reduce over boundingBoxes picking the largest face (a strictly larger
area replaces the accumulator). -/
def largestFaceBox : List Box → Option Box
  | [] => none
  | b :: rest => some (rest.foldl (fun largest face =>
      if largest.width * largest.height < face.width * face.height then face
      else largest) b)

/-- faceSize of runHumanSelfieCheck: percentage of the image covered by the
largest face, 0 when there are no bounding boxes. -/
def selfieFaceSize (imgWidth imgHeight : ℕ) (boxes : List Box) : ℚ :=
  match largestFaceBox boxes with
  | none => 0
  | some b => b.width * b.height / ((imgWidth : ℚ) * imgHeight) * 100

/-- Body of runHumanSelfieCheck up to its catch: photo validation, image
load, dimension validation, then the pass decision over the detection. -/
def runHumanSelfieCheckBody (photo : BlobMeta)
    (load : Except String (ℕ × ℕ)) (det : HumanDetectionResult) :
    Except String HumanSelfieCheckResult :=
  if !strStartsWith photo.type "image/" then
    Except.error "Invalid file format - not an image file"
  else if photo.size < 1024 then
    Except.error "Photo file too small - appears to be empty"
  else if 10 * 1024 * 1024 < photo.size then
    Except.error "Photo file too large (>10MB)"
  else
    match load with
    | Except.error e => Except.error e
    | Except.ok (w, h) =>
        if w = 0 ∨ h = 0 then Except.error "Invalid image dimensions"
        else if w < 100 ∨ h < 100 then
          Except.error "Image resolution too low (minimum 100x100)"
        else
          let faceSize := selfieFaceSize w h det.boundingBoxes
          let passed := det.hasHuman && decide ((6:ℚ)/10 ≤ det.confidence) &&
            (decide (faceSize = 0) || decide ((2:ℚ) ≤ faceSize))
          Except.ok
            { passed := passed
              confidence := if passed then jsRound (det.confidence * 100) else 0
              faceDetected := det.hasHuman
              faceConfidence := det.confidence
              faceSize := faceSize / 100 }

/-- The catch handler of runHumanSelfieCheck. -/
def selfieErrorResult : HumanSelfieCheckResult :=
  { passed := false, confidence := 0, faceDetected := false
    faceConfidence := 0, faceSize := 0 }

def runHumanSelfieCheck (photo : BlobMeta) (load : Except String (ℕ × ℕ))
    (det : HumanDetectionResult) : HumanSelfieCheckResult :=
  match runHumanSelfieCheckBody photo load det with
  | Except.ok r => r
  | Except.error _ => selfieErrorResult

/-- Body of runHumanVideoCheck up to its catch: video validation, metadata
load, dimension validation, then result assembly from the aggregate
detection. -/
def runHumanVideoCheckBody (video : BlobMeta)
    (load : Except String (ℕ × ℕ)) (det : VideoHumanDetectionResult) :
    Except String HumanVideoCheckResult :=
  if !strStartsWith video.type "video/" then
    Except.error "Invalid file format - not a video file"
  else if video.size < 1024 then
    Except.error "Video file too small - appears to be empty"
  else if 100 * 1024 * 1024 < video.size then
    Except.error "Video file too large (>100MB)"
  else
    match load with
    | Except.error e => Except.error e
    | Except.ok (w, h) =>
        if w = 0 ∨ h = 0 then Except.error "Invalid video dimensions"
        else if w < 100 ∨ h < 100 then
          Except.error "Video resolution too low (minimum 100x100)"
        else Except.ok (mkHumanVideoCheckResult det)

/-- The catch handler of runHumanVideoCheck. -/
def videoErrorResult : HumanVideoCheckResult :=
  { passed := false, confidence := 0, framesChecked := 0, humanFrames := 0
    maxConfidence := 0, stoppedEarly := false }

def runHumanVideoCheck (video : BlobMeta) (load : Except String (ℕ × ℕ))
    (det : VideoHumanDetectionResult) : HumanVideoCheckResult :=
  match runHumanVideoCheckBody video load det with
  | Except.ok r => r
  | Except.error _ => videoErrorResult

/-- Result of the AI Challenge Check step; details, aiConfidence and
explanation are omitted. -/
structure AIChallengeCheckResult where
  passed : Bool
  confidence : ℚ
  challengeCompleted : Bool
  score : ℚ
deriving DecidableEq, Repr

/-- Body of runAIChallengeCheck up to its catch: video validation, then the
judge-service round trip (an Except carrying the score on success, or the
thrown transport, HTTP or parse error), then the score banding. -/
def runAIChallengeCheckBody (video : BlobMeta) (judge : Except String ℚ) :
    Except String AIChallengeCheckResult :=
  if !strStartsWith video.type "video/" then
    Except.error "Invalid file format - not a video file"
  else if video.size < 1024 then
    Except.error "Video file too small for analysis"
  else if 100 * 1024 * 1024 < video.size then
    Except.error "Video file too large for AI analysis (>100MB)"
  else
    match judge with
    | Except.error e => Except.error e
    | Except.ok score =>
        let d := processAIResult score
        Except.ok
          { passed := d.passed, confidence := d.confidence
            challengeCompleted := d.challengeCompleted, score := score }

/-- The development-mode fallback of the runAIChallengeCheck catch. -/
def simulatedAIResult : AIChallengeCheckResult :=
  { passed := true, confidence := 75, challengeCompleted := true, score := 75 }

/-- The production branch of the runAIChallengeCheck catch. -/
def aiErrorResult : AIChallengeCheckResult :=
  { passed := false, confidence := 0, challengeCompleted := false, score := 0 }

/-- runAIChallengeCheck: the body wrapped in its catch, which branches on
process.env.NODE_ENV being development for every caught error. -/
def runAIChallengeCheck (devMode : Bool) (video : BlobMeta)
    (judge : Except String ℚ) : AIChallengeCheckResult :=
  match runAIChallengeCheckBody video judge with
  | Except.ok r => r
  | Except.error _ => if devMode then simulatedAIResult else aiErrorResult

/-! ## Step Pipeline

From SimpleVerificationService in lib/verification/simpleVerificationService.ts
(lines 310-580).  The four step executions are opaque to the orchestration:
each enters as a StepOutcome (the passed flag and 0-100 confidence of the
step result).  Step name, progress and message fields, which do not affect
pass/fail or confidence, are omitted from the tracked step state. -/

inductive StepStatus where
  | pending
  | running
  | completed
  | failed
deriving DecidableEq, Repr

structure VerificationStep where
  status : StepStatus
  confidence : Option ℚ
deriving DecidableEq, Repr

/-- Outcome of one step function as consumed by the service wrapper. -/
structure StepOutcome where
  passed : Bool
  confidence : ℚ
deriving DecidableEq, Repr

structure VerificationResult where
  success : Bool
  steps : List VerificationStep
  overallConfidence : ℚ
  passed : Bool
deriving DecidableEq, Repr

/-- The updateStep call after a step resolves: completed or failed status,
confidence divided by 100. -/
def applyOutcome (o : StepOutcome) : VerificationStep :=
  { status := if o.passed then StepStatus.completed else StepStatus.failed
    confidence := some (o.confidence / 100) }

def pendingStep : VerificationStep :=
  { status := StepStatus.pending, confidence := none }

/-- JavaScript truthiness of the optional confidence field as used by the
filter in calculateOverallConfidence: undefined and 0 are falsy. -/
def confTruthy : Option ℚ → Bool
  | none => false
  | some c => decide (c ≠ 0)

/-- calculateOverallConfidence (lines 560-566): mean of the confidences of
the steps that are completed and have truthy confidence, 0 when there are
none. -/
def calculateOverallConfidence (steps : List VerificationStep) : ℚ :=
  let completedSteps := steps.filter (fun s =>
    decide (s.status = StepStatus.completed) && confTruthy s.confidence)
  if completedSteps.length = 0 then 0
  else (completedSteps.map (fun s => s.confidence.getD 0)).sum / completedSteps.length

/-- runFullVerification (lines 515-558): the four steps run in order, each
failure returning getFailedResult (overallConfidence 0) with the remaining
steps still pending; when all pass, overallConfidence comes from
calculateOverallConfidence. -/
def runFullVerification (o1 o2 o3 o4 : StepOutcome) : VerificationResult :=
  let s1 := applyOutcome o1
  if o1.passed then
    let s2 := applyOutcome o2
    if o2.passed then
      let s3 := applyOutcome o3
      if o3.passed then
        let s4 := applyOutcome o4
        if o4.passed then
          { success := true
            steps := [s1, s2, s3, s4]
            overallConfidence := calculateOverallConfidence [s1, s2, s3, s4]
            passed := true }
        else
          { success := false, steps := [s1, s2, s3, s4]
            overallConfidence := 0, passed := false }
      else
        { success := false, steps := [s1, s2, s3, pendingStep]
          overallConfidence := 0, passed := false }
    else
      { success := false, steps := [s1, s2, pendingStep, pendingStep]
        overallConfidence := 0, passed := false }
  else
    { success := false, steps := [s1, pendingStep, pendingStep, pendingStep]
      overallConfidence := 0, passed := false }

/-- Modelled from the claim wording of C1 for comparison: the arithmetic
mean of the confidences of the steps that passed (status completed). -/
def meanPassedConfidence (steps : List VerificationStep) : ℚ :=
  let passedSteps := steps.filter (fun s => decide (s.status = StepStatus.completed))
  (passedSteps.map (fun s => s.confidence.getD 0)).sum / passedSteps.length

theorem keepEveryNth_sublist (N : ℕ) (l : List String) :
    (keepEveryNth N l).Sublist l := by
  have h1 : ((l.enum.filter (fun p => p.1 % N = 0)).map Prod.snd).Sublist
      (l.enum.map Prod.snd) := List.Sublist.map _ (List.filter_sublist _)
  simpa [keepEveryNth, List.enum_map_snd] using h1

/-- C9: frame lists longer than 25 are reduced to the indices that are
multiples of N = floor(count/20), truncated to the first 20, leaving at most
20 frames in their original order; lists of length at most 25 pass through
unchanged. -/
theorem reduceFrames_spec (l : List String) :
    (l.length ≤ 25 → reduceFrames l = l) ∧
    (25 < l.length →
      (reduceFrames l).length ≤ 20 ∧
      reduceFrames l = (keepEveryNth (l.length / 20) l).take 20 ∧
      (reduceFrames l).Sublist l) := by
  constructor
  · intro h
    simp [reduceFrames, Nat.not_lt.mpr h]
  · intro h
    refine ⟨?_, ?_, ?_⟩
    · simp [reduceFrames, h, List.length_take]
    · simp [reduceFrames, h]
    · simp only [reduceFrames, h, if_pos]
      exact (List.take_sublist _ _).trans (keepEveryNth_sublist _ _)

/-- C9 witness: a 30-frame list is reduced to at most 20 frames that form a
subsequence of the original. -/
theorem reduceFrames_spec_witness :
    (reduceFrames (List.replicate 30 "f")).length ≤ 20 ∧
    (reduceFrames (List.replicate 30 "f")).Sublist (List.replicate 30 "f") := by
  have h := reduceFrames_spec (List.replicate 30 "f")
  have h30 : (25 : ℕ) < (List.replicate 30 "f").length := by decide
  exact ⟨(h.2 h30).1, (h.2 h30).2.2⟩

/-- C2: the AI Challenge Check decision is a fixed function of the score:
scores of 60 and above pass with challengeCompleted, scores in [40, 60)
pass leniently with challengeCompleted, scores below 40 fail with
challengeCompleted false, and the returned confidence is max(60, score)
on pass and min(40, score) on fail. -/
theorem processAIResult_banding (score : ℚ) :
    (60 ≤ score → (processAIResult score).passed = true ∧
      (processAIResult score).challengeCompleted = true) ∧
    (40 ≤ score → score < 60 → (processAIResult score).passed = true ∧
      (processAIResult score).challengeCompleted = true) ∧
    (score < 40 → (processAIResult score).passed = false ∧
      (processAIResult score).challengeCompleted = false) ∧
    ((processAIResult score).passed = true →
      (processAIResult score).confidence = jsMax 60 score) ∧
    ((processAIResult score).passed = false →
      (processAIResult score).confidence = jsMin 40 score) := by
  by_cases h60 : 60 ≤ score
  · refine ⟨fun _ => ⟨?_, ?_⟩, fun _ _ => ⟨?_, ?_⟩, fun h => absurd h (by linarith), ?_, ?_⟩ <;>
      simp [processAIResult, h60]
  · by_cases h40 : 40 ≤ score
    · refine ⟨fun h => absurd h h60, fun _ _ => ⟨?_, ?_⟩,
        fun h => absurd h (by linarith), ?_, ?_⟩ <;>
        simp [processAIResult, h60, h40]
    · refine ⟨fun h => absurd h h60, fun h _ => absurd h h40, fun _ => ⟨?_, ?_⟩, ?_, ?_⟩ <;>
        simp [processAIResult, h60, h40]

/-- C2 witness: at score 85 the check passes with challengeCompleted and
confidence max(60, 85) = 85. -/
theorem processAIResult_banding_witness :
    (processAIResult 85).passed = true ∧
    (processAIResult 85).challengeCompleted = true ∧
    (processAIResult 85).confidence = 85 := by
  have h := processAIResult_banding 85
  have h85 : (60 : ℚ) ≤ 85 := by norm_num
  refine ⟨(h.1 h85).1, (h.1 h85).2, ?_⟩
  have hc := h.2.2.2.1 (h.1 h85).1
  rw [hc]
  decide

theorem scanGo_append_of_stopped (threshold : ℕ) (l : List FrameOutcome) :
    ∀ (s : ScanState) (l' : List FrameOutcome),
      s.stoppedEarly = false → (scanGo threshold s l).stoppedEarly = true →
      scanGo threshold s (l ++ l') = scanGo threshold s l := by
  induction l with
  | nil =>
    intro s l' hs hstop
    simp only [scanGo] at hstop
    rw [hstop] at hs
    cases hs
  | cons o rest ih =>
    intro s l' hs hstop
    cases o with
    | err =>
      simp only [List.cons_append, scanGo] at hstop ⊢
      exact ih _ _ hs hstop
    | frame h c =>
      cases h with
      | false =>
        simp only [List.cons_append, scanGo, Bool.false_eq_true, if_false] at hstop ⊢
        exact ih _ _ hs hstop
      | true =>
        simp only [List.cons_append, scanGo, if_true] at hstop ⊢
        by_cases ht : threshold ≤ s.consecutiveDetections + 1
        · simp only [ht, if_true]
        · simp only [ht, if_false] at hstop ⊢
          exact ih _ _ hs hstop

theorem le_jsMax_left (a b : ℚ) : a ≤ jsMax a b := by
  unfold jsMax
  by_cases h : a ≤ b
  · rw [if_pos h]; exact h
  · rw [if_neg h]

theorem jsMin_le_left (a b : ℚ) : jsMin a b ≤ a := by
  unfold jsMin
  by_cases h : b ≤ a
  · rw [if_pos h]; exact h
  · rw [if_neg h]

theorem lt_jsMin {a b c : ℚ} (h1 : c < a) (h2 : c < b) : c < jsMin a b := by
  unfold jsMin
  by_cases h : b ≤ a
  · rw [if_pos h]; exact h2
  · rw [if_neg h]; exact h1

theorem scanGo_maxConfidence_nonneg (threshold : ℕ) (l : List FrameOutcome) :
    ∀ s : ScanState, 0 ≤ s.maxConfidence →
      0 ≤ (scanGo threshold s l).maxConfidence := by
  induction l with
  | nil => intro s hs; simpa [scanGo] using hs
  | cons o rest ih =>
    intro s hs
    cases o with
    | err => exact ih _ hs
    | frame h c =>
      cases h with
      | false =>
        simp only [scanGo, Bool.false_eq_true, if_false]
        exact ih _ hs
      | true =>
        simp only [scanGo, if_true]
        by_cases ht : threshold ≤ s.consecutiveDetections + 1
        · simp only [ht, if_true]
          exact le_trans hs (le_jsMax_left _ _)
        · simp only [ht, if_false]
          exact ih _ (le_trans hs (le_jsMax_left _ _))

/-- C4: once the consecutive-detection counter reaches the threshold the
scan stops at that frame: the scan result is unchanged by any frames that
would come later (they are never visited) and stoppedEarly is true; a
concrete all-detect run with threshold 2 and maxFrames 50 checks only 2
frames, so framesChecked can be less than maxFrames. -/
theorem scanVideo_early_exit :
    (∀ (threshold : ℕ) (l l' : List FrameOutcome),
        (scanFrames threshold l).stoppedEarly = true →
        scanFrames threshold (l ++ l') = scanFrames threshold l) ∧
    ((detectHumanInVideo none (1/10) 50 2
        (fun _ => FrameOutcome.frame true (9/10))).stoppedEarly = true ∧
      (detectHumanInVideo none (1/10) 50 2
        (fun _ => FrameOutcome.frame true (9/10))).totalFramesChecked = 2 ∧
      (detectHumanInVideo none (1/10) 50 2
        (fun _ => FrameOutcome.frame true (9/10))).totalFramesChecked < 50) := by
  constructor
  · intro threshold l l' hstop
    exact scanGo_append_of_stopped threshold l initScan l' rfl hstop
  · refine ⟨?_, ?_, ?_⟩ <;> decide

/-- C4 witness: with threshold 2 a scan that stops early on the first two
frames returns the same result when further frames are appended. -/
theorem scanVideo_early_exit_witness :
    scanFrames 2 ([FrameOutcome.frame true 1, FrameOutcome.frame true 1] ++
        [FrameOutcome.frame false 0]) =
      scanFrames 2 [FrameOutcome.frame true 1, FrameOutcome.frame true 1] :=
  scanVideo_early_exit.1 2 _ _ (by decide)

/-- C5: the aggregate confidence is min(0.95, best single-frame confidence
+ 0.10) when at least one frame produced a positive detection and 0
otherwise; for every outcome sequence it lies in [0, 0.95] and is 0 exactly
when no frame produced a positive detection. -/
theorem scanVideo_aggregate_confidence (threshold : ℕ) (l : List FrameOutcome) :
    (0 < (mkVideoDetectionResult (scanFrames threshold l)).detectionCount →
      (mkVideoDetectionResult (scanFrames threshold l)).confidence =
        jsMin (95/100) ((scanFrames threshold l).maxConfidence + 1/10)) ∧
    ((mkVideoDetectionResult (scanFrames threshold l)).detectionCount = 0 →
      (mkVideoDetectionResult (scanFrames threshold l)).confidence = 0) ∧
    0 ≤ (mkVideoDetectionResult (scanFrames threshold l)).confidence ∧
    (mkVideoDetectionResult (scanFrames threshold l)).confidence ≤ 95/100 ∧
    ((mkVideoDetectionResult (scanFrames threshold l)).confidence = 0 ↔
      (mkVideoDetectionResult (scanFrames threshold l)).detectionCount = 0) := by
  have hmax : 0 ≤ (scanFrames threshold l).maxConfidence :=
    scanGo_maxConfidence_nonneg threshold l initScan le_rfl
  have hcnt : (mkVideoDetectionResult (scanFrames threshold l)).detectionCount =
      (scanFrames threshold l).detectionsCount := rfl
  by_cases hd : 0 < (scanFrames threshold l).detectionsCount
  · have hconf : (mkVideoDetectionResult (scanFrames threshold l)).confidence =
        jsMin (95/100) ((scanFrames threshold l).maxConfidence + 1/10) := by
      simp [mkVideoDetectionResult, hd]
    have hpos : (0:ℚ) <
        jsMin (95/100) ((scanFrames threshold l).maxConfidence + 1/10) :=
      lt_jsMin (by norm_num) (by linarith)
    refine ⟨fun _ => hconf, ?_, ?_, ?_, ?_⟩
    · intro h0; exfalso; rw [hcnt] at h0; omega
    · rw [hconf]; linarith
    · rw [hconf]; exact jsMin_le_left _ _
    · rw [hconf, hcnt]
      constructor
      · intro h0
        exfalso
        rw [h0] at hpos
        exact lt_irrefl 0 hpos
      · intro h0
        exfalso
        omega
  · have h0 : (scanFrames threshold l).detectionsCount = 0 := by omega
    have hconf : (mkVideoDetectionResult (scanFrames threshold l)).confidence = 0 := by
      simp [mkVideoDetectionResult, h0]
    refine ⟨?_, fun _ => hconf, ?_, ?_, ?_⟩
    · intro hp
      exfalso
      rw [hcnt] at hp
      omega
    · rw [hconf]
    · rw [hconf]; norm_num
    · rw [hconf, hcnt, h0]
      exact ⟨fun _ => rfl, fun _ => rfl⟩

/-- C5 witness: a one-frame scan with a positive detection at confidence
0.9 yields aggregate confidence min(0.95, 0.9 + 0.1) = 0.95. -/
theorem scanVideo_aggregate_confidence_witness :
    (mkVideoDetectionResult
        (scanFrames 2 [FrameOutcome.frame true (9/10)])).confidence = 95/100 := by
  have h := (scanVideo_aggregate_confidence 2 [FrameOutcome.frame true (9/10)]).1
    (by decide)
  rw [h]
  norm_num [scanFrames, scanGo, initScan, jsMax, jsMin]

theorem generateTimePoints_eq_nil (d interval : ℚ) (maxFrames : ℕ)
    (hd : d ≤ 1/10) : generateTimePoints d interval maxFrames = [] := by
  cases maxFrames with
  | zero => rfl
  | succ n =>
    have h : ¬ ((0:ℚ) < d - 1/10) := by linarith
    unfold generateTimePoints generateTimePointsGo
    rw [if_neg h]

/-- C10: for a finite duration d with 0 < d ≤ 0.1 the generated offset list
is empty (the fallback list is not substituted), so no frames are checked
and the aggregate result is all-zero with stoppedEarly false; the Human
Video Check step built from it fails. -/
theorem detectHumanInVideo_short_duration (d : ℚ) (hd0 : 0 < d)
    (hd : d ≤ 1/10) (frameInterval : ℚ) (maxFrames consecutiveThreshold : ℕ)
    (oracle : ℕ → FrameOutcome) :
    generateTimePoints d frameInterval maxFrames = [] ∧
    (detectHumanInVideo (some d) frameInterval maxFrames consecutiveThreshold
        oracle).hasHuman = false ∧
    (detectHumanInVideo (some d) frameInterval maxFrames consecutiveThreshold
        oracle).confidence = 0 ∧
    (detectHumanInVideo (some d) frameInterval maxFrames consecutiveThreshold
        oracle).totalFramesChecked = 0 ∧
    (detectHumanInVideo (some d) frameInterval maxFrames consecutiveThreshold
        oracle).stoppedEarly = false ∧
    (mkHumanVideoCheckResult
        (detectHumanInVideo (some d) frameInterval maxFrames
          consecutiveThreshold oracle)).passed = false := by
  have hnil := generateTimePoints_eq_nil d frameInterval maxFrames hd
  refine ⟨hnil, ?_, ?_, ?_, ?_, ?_⟩ <;>
    simp [detectHumanInVideo, hd0, hnil, scanFrames, scanGo, initScan,
      mkVideoDetectionResult, mkHumanVideoCheckResult]

/-- C10 witness: a 0.05-second video yields zero checked frames and a
failing Human Video Check. -/
theorem detectHumanInVideo_short_duration_witness :
    generateTimePoints (1/20) (1/10) 50 = [] ∧
    (detectHumanInVideo (some (1/20)) (1/10) 50 2
        (fun _ => FrameOutcome.frame true 1)).totalFramesChecked = 0 ∧
    (mkHumanVideoCheckResult
        (detectHumanInVideo (some (1/20)) (1/10) 50 2
          (fun _ => FrameOutcome.frame true 1))).passed = false := by
  have h := detectHumanInVideo_short_duration (1/20) (by norm_num) (by norm_num)
    (1/10) 50 2 (fun _ => FrameOutcome.frame true 1)
  exact ⟨h.1, h.2.2.2.1, h.2.2.2.2.2⟩

/-- C3 (amended): inputs failing a step's validation resolve to the
specific thrown validation message, and every caught error resolves to the
failed result with confidence 0 and passed false — except that in the AI
Challenge step the development-mode catch substitutes the simulated passing
result (score 75) for EVERY caught error, validation failures included, not
only judge-transport failures; in production mode the AI step also fails
with confidence 0. -/
theorem step_validation_error_handling (video photo : BlobMeta)
    (load : Except String (ℕ × ℕ)) (det : HumanDetectionResult)
    (vdet : VideoHumanDetectionResult) (judge : Except String ℚ) (e : String) :
    (strStartsWith photo.type "image/" = false →
      runHumanSelfieCheckBody photo load det =
        Except.error "Invalid file format - not an image file") ∧
    (strStartsWith photo.type "image/" = true → photo.size < 1024 →
      runHumanSelfieCheckBody photo load det =
        Except.error "Photo file too small - appears to be empty") ∧
    (strStartsWith photo.type "image/" = true → 1024 ≤ photo.size →
      10 * 1024 * 1024 < photo.size →
      runHumanSelfieCheckBody photo load det =
        Except.error "Photo file too large (>10MB)") ∧
    (∀ w h : ℕ, strStartsWith photo.type "image/" = true → 1024 ≤ photo.size →
      photo.size ≤ 10 * 1024 * 1024 → load = Except.ok (w, h) →
      ¬ (w = 0 ∨ h = 0) → (w < 100 ∨ h < 100) →
      runHumanSelfieCheckBody photo load det =
        Except.error "Image resolution too low (minimum 100x100)") ∧
    (runHumanSelfieCheckBody photo load det = Except.error e →
      runHumanSelfieCheck photo load det = selfieErrorResult ∧
      selfieErrorResult.passed = false ∧ selfieErrorResult.confidence = 0) ∧
    (runHumanVideoCheckBody video load vdet = Except.error e →
      runHumanVideoCheck video load vdet = videoErrorResult ∧
      videoErrorResult.passed = false ∧ videoErrorResult.confidence = 0) ∧
    (runAIChallengeCheckBody video judge = Except.error e →
      runAIChallengeCheck false video judge = aiErrorResult ∧
      aiErrorResult.passed = false ∧ aiErrorResult.confidence = 0 ∧
      runAIChallengeCheck true video judge = simulatedAIResult ∧
      simulatedAIResult.passed = true ∧ simulatedAIResult.confidence = 75 ∧
      simulatedAIResult.score = 75) := by
  refine ⟨?_, ?_, ?_, ?_, ?_, ?_, ?_⟩
  · intro h1
    simp [runHumanSelfieCheckBody, h1]
  · intro h1 h2
    simp [runHumanSelfieCheckBody, h1, h2]
  · intro h1 h2 h3
    simp [runHumanSelfieCheckBody, h1, Nat.not_lt.mpr h2, h3]
  · intro w h h1 h2 h3 h4 h5 h6
    subst h4
    simp [runHumanSelfieCheckBody, h1, Nat.not_lt.mpr h2, Nat.not_lt.mpr h3, h5, h6]
  · intro hbe
    exact ⟨by simp [runHumanSelfieCheck, hbe], rfl, rfl⟩
  · intro hbe
    exact ⟨by simp [runHumanVideoCheck, hbe], rfl, rfl⟩
  · intro hbe
    exact ⟨by simp [runAIChallengeCheck, hbe], rfl, rfl, by simp [runAIChallengeCheck, hbe],
      rfl, rfl, rfl⟩

/-- C3 counterexample: in development mode a video blob whose MIME type is
not a video (an input-validation failure, with a perfectly reachable judge)
makes the AI Challenge step return the simulated passing result with
confidence 75 instead of an immediately-failed result with confidence 0. -/
theorem step_validation_error_handling_counterexample :
    (runAIChallengeCheck true ⟨"image/png", 500000⟩ (Except.ok 90)).passed = true ∧
    (runAIChallengeCheck true ⟨"image/png", 500000⟩ (Except.ok 90)).confidence = 75 ∧
    ((75:ℚ) = 0 → False) := by
  have hbody : runAIChallengeCheckBody ⟨"image/png", 500000⟩ (Except.ok 90) =
      Except.error "Invalid file format - not a video file" := by
    simp only [runAIChallengeCheckBody]
    rw [if_pos]
    decide
  refine ⟨?_, ?_, by norm_num⟩ <;> simp [runAIChallengeCheck, hbody, simulatedAIResult]

/-- C3 witness: a selfie blob with a text MIME type produces the specific
validation message and the wrapped step resolves to the failed
zero-confidence result. -/
theorem step_validation_error_handling_witness :
    runHumanSelfieCheckBody ⟨"text/plain", 5000⟩ (Except.ok (500, 500))
        ⟨false, 0, 0, []⟩ =
      Except.error "Invalid file format - not an image file" ∧
    runHumanSelfieCheck ⟨"text/plain", 5000⟩ (Except.ok (500, 500))
        ⟨false, 0, 0, []⟩ = selfieErrorResult := by
  have h := step_validation_error_handling ⟨"video/webm", 50000⟩
    ⟨"text/plain", 5000⟩ (Except.ok (500, 500)) ⟨false, 0, 0, []⟩
    ⟨false, 0, 0, 0, 0, false⟩ (Except.ok 50)
    "Invalid file format - not an image file"
  have hbody := h.1 (by decide)
  exact ⟨hbody, (h.2.2.2.2.1 hbody).1⟩

theorem largestFaceBox_mem (l : List Box) (b : Box)
    (hl : largestFaceBox l = some b) : b ∈ l := by
  have key : ∀ (m : List Box) (a : Box),
      m.foldl (fun largest face =>
        if largest.width * largest.height < face.width * face.height then face
        else largest) a ∈ a :: m := by
    intro m
    induction m with
    | nil => intro a; simp
    | cons x xs ih =>
      intro a
      simp only [List.foldl_cons]
      by_cases hc : a.width * a.height < x.width * x.height
      · rw [if_pos hc]
        have h2 := ih x
        simp only [List.mem_cons] at h2 ⊢
        tauto
      · rw [if_neg hc]
        have h2 := ih a
        simp only [List.mem_cons] at h2 ⊢
        tauto
  cases l with
  | nil => cases hl
  | cons y ys =>
    simp only [largestFaceBox, Option.some.injEq] at hl
    subst hl
    exact key ys y

theorem selfieFaceSize_pos (w h : ℕ) (hw : 0 < w) (hh : 0 < h)
    (boxes : List Box) (hb : ∀ b ∈ boxes, 0 < b.width * b.height)
    (hne : boxes ≠ []) : 0 < selfieFaceSize w h boxes := by
  cases hbox : largestFaceBox boxes with
  | none =>
    cases boxes with
    | nil => exact absurd rfl hne
    | cons y ys => simp [largestFaceBox] at hbox
  | some b =>
    have hmem := largestFaceBox_mem boxes b hbox
    have harea := hb b hmem
    have hwq : (0:ℚ) < (w : ℚ) := by exact_mod_cast hw
    have hhq : (0:ℚ) < (h : ℚ) := by exact_mod_cast hh
    simp only [selfieFaceSize, hbox]
    have := div_pos harea (mul_pos hwq hhq)
    linarith

/-- C6 (amended): for a photo passing the selfie-step validation, the check
passes iff the detection has hasHuman, confidence at least 0.6 and either no
bounding box is available or the largest face covers at least 2 percent of
the image (inclusive); the returned step confidence is the detection
confidence times 100 rounded to the nearest integer (Math.round) when
passed, else 0. -/
theorem selfie_pass_characterization (photo : BlobMeta) (w h : ℕ)
    (det : HumanDetectionResult)
    (htype : strStartsWith photo.type "image/" = true)
    (hsz1 : 1024 ≤ photo.size) (hsz2 : photo.size ≤ 10 * 1024 * 1024)
    (hw : 100 ≤ w) (hh : 100 ≤ h)
    (hboxes : ∀ b ∈ det.boundingBoxes, 0 < b.width * b.height) :
    ((runHumanSelfieCheck photo (Except.ok (w, h)) det).passed = true ↔
      (det.hasHuman = true ∧ 6/10 ≤ det.confidence ∧
        (det.boundingBoxes = [] ∨ 2 ≤ selfieFaceSize w h det.boundingBoxes))) ∧
    ((runHumanSelfieCheck photo (Except.ok (w, h)) det).passed = true →
      (runHumanSelfieCheck photo (Except.ok (w, h)) det).confidence =
        jsRound (det.confidence * 100)) ∧
    ((runHumanSelfieCheck photo (Except.ok (w, h)) det).passed = false →
      (runHumanSelfieCheck photo (Except.ok (w, h)) det).confidence = 0) := by
  have hzero : selfieFaceSize w h det.boundingBoxes = 0 ↔ det.boundingBoxes = [] := by
    constructor
    · intro h0
      by_contra hne
      have hp := selfieFaceSize_pos w h (by omega) (by omega) det.boundingBoxes hboxes hne
      rw [h0] at hp
      exact lt_irrefl 0 hp
    · intro hnil
      simp [selfieFaceSize, hnil, largestFaceBox]
  have hns : ¬ (photo.size < 1024) := by omega
  have hnl : ¬ (10 * 1024 * 1024 < photo.size) := by omega
  have hd0 : ¬ (w = 0 ∨ h = 0) := by omega
  have hd100 : ¬ (w < 100 ∨ h < 100) := by omega
  have hr : runHumanSelfieCheck photo (Except.ok (w, h)) det =
      { passed := det.hasHuman && decide ((6:ℚ)/10 ≤ det.confidence) &&
          (decide (selfieFaceSize w h det.boundingBoxes = 0) ||
            decide ((2:ℚ) ≤ selfieFaceSize w h det.boundingBoxes))
        confidence := if det.hasHuman && decide ((6:ℚ)/10 ≤ det.confidence) &&
            (decide (selfieFaceSize w h det.boundingBoxes = 0) ||
              decide ((2:ℚ) ≤ selfieFaceSize w h det.boundingBoxes))
          then jsRound (det.confidence * 100) else 0
        faceDetected := det.hasHuman
        faceConfidence := det.confidence
        faceSize := selfieFaceSize w h det.boundingBoxes / 100 } := by
    simp [runHumanSelfieCheck, runHumanSelfieCheckBody, htype, hns, hnl, hd0, hd100]
  rw [hr]
  refine ⟨?_, ?_, ?_⟩
  · simp only [Bool.and_eq_true, Bool.or_eq_true, decide_eq_true_eq]
    rw [hzero]
    tauto
  · intro hp
    simp only at hp ⊢
    rw [if_pos hp]
  · intro hp
    simp only at hp ⊢
    rw [if_neg]
    simp [hp]

/-- C6 witness: a valid selfie whose single face covers exactly 2.0 percent
of the image passes (the comparison is inclusive) and returns confidence
round(0.8 x 100) = 80, while the same selfie with a face covering 1.99
percent is rejected. -/
theorem selfie_pass_characterization_witness :
    (runHumanSelfieCheck ⟨"image/jpeg", 50000⟩ (Except.ok (1000, 1000))
        ⟨true, 8/10, 1, [⟨0, 0, 200, 100, 8/10⟩]⟩).passed = true ∧
    (runHumanSelfieCheck ⟨"image/jpeg", 50000⟩ (Except.ok (1000, 1000))
        ⟨true, 8/10, 1, [⟨0, 0, 200, 100, 8/10⟩]⟩).confidence = 80 ∧
    (runHumanSelfieCheck ⟨"image/jpeg", 50000⟩ (Except.ok (1000, 1000))
        ⟨true, 8/10, 1, [⟨0, 0, 199, 100, 8/10⟩]⟩).passed = false := by
  have hfs : selfieFaceSize 1000 1000 [⟨0, 0, 200, 100, 8/10⟩] = 2 := by
    norm_num [selfieFaceSize, largestFaceBox]
  have hfs2 : selfieFaceSize 1000 1000 [⟨0, 0, 199, 100, 8/10⟩] = 199/100 := by
    norm_num [selfieFaceSize, largestFaceBox]
  have h := selfie_pass_characterization ⟨"image/jpeg", 50000⟩ 1000 1000
    ⟨true, 8/10, 1, [⟨0, 0, 200, 100, 8/10⟩]⟩ (by decide) (by norm_num)
    (by norm_num) (by norm_num) (by norm_num)
    (by intro b hb; simp at hb; subst hb; norm_num)
  have h2 := selfie_pass_characterization ⟨"image/jpeg", 50000⟩ 1000 1000
    ⟨true, 8/10, 1, [⟨0, 0, 199, 100, 8/10⟩]⟩ (by decide) (by norm_num)
    (by norm_num) (by norm_num) (by norm_num)
    (by intro b hb; simp at hb; subst hb; norm_num)
  have hp : (runHumanSelfieCheck ⟨"image/jpeg", 50000⟩ (Except.ok (1000, 1000))
      ⟨true, 8/10, 1, [⟨0, 0, 200, 100, 8/10⟩]⟩).passed = true := by
    apply h.1.mpr
    refine ⟨rfl, by norm_num, Or.inr ?_⟩
    rw [hfs]
  refine ⟨hp, ?_, ?_⟩
  · have hc := h.2.1 hp
    rw [hc]
    norm_num [jsRound]
  · have hnp : ¬ ((runHumanSelfieCheck ⟨"image/jpeg", 50000⟩ (Except.ok (1000, 1000))
        ⟨true, 8/10, 1, [⟨0, 0, 199, 100, 8/10⟩]⟩).passed = true) := by
      rw [h2.1]
      rintro ⟨-, -, hbad⟩
      rcases hbad with hnil | hge
      · cases hnil
      · rw [hfs2] at hge
        norm_num at hge
    cases hb : (runHumanSelfieCheck ⟨"image/jpeg", 50000⟩ (Except.ok (1000, 1000))
        ⟨true, 8/10, 1, [⟨0, 0, 199, 100, 8/10⟩]⟩).passed with
    | false => rfl
    | true => exact absurd hb hnp

/-- C6 counterexample: a passing selfie with detection confidence 0.675
returns step confidence round(67.5) = 68, not 0.675 x 100 = 67.5 — the
returned confidence is Math.round(confidence x 100), not confidence x 100. -/
theorem selfie_confidence_rounding_counterexample :
    (runHumanSelfieCheck ⟨"image/jpeg", 50000⟩ (Except.ok (1000, 1000))
        ⟨true, 27/40, 1, [⟨0, 0, 200, 200, 27/40⟩]⟩).passed = true ∧
    (runHumanSelfieCheck ⟨"image/jpeg", 50000⟩ (Except.ok (1000, 1000))
        ⟨true, 27/40, 1, [⟨0, 0, 200, 200, 27/40⟩]⟩).confidence = 68 ∧
    (27/40 : ℚ) * 100 = 135/2 ∧
    ((68 : ℚ) = 135/2 → False) := by
  have hfs : selfieFaceSize 1000 1000 [⟨0, 0, 200, 200, 27/40⟩] = 4 := by
    norm_num [selfieFaceSize, largestFaceBox]
  have hr : runHumanSelfieCheck ⟨"image/jpeg", 50000⟩ (Except.ok (1000, 1000))
      ⟨true, 27/40, 1, [⟨0, 0, 200, 200, 27/40⟩]⟩ =
      { passed := true, confidence := jsRound ((27/40) * 100)
        faceDetected := true, faceConfidence := 27/40, faceSize := 4 / 100 } := by
    simp only [runHumanSelfieCheck, runHumanSelfieCheckBody]
    norm_num [hfs]
    rw [show strStartsWith "image/jpeg" "image/" = true from by decide]
    rfl
  rw [hr]
  refine ⟨rfl, ?_, by norm_num, by norm_num⟩
  norm_num [jsRound]

/-- C7 (amended): for both detectors, when some candidates survive the
confidence filter the returned confidence is the maximum confidence among
the confidence-filtered candidates (not among the candidates that also pass
the bounding-box-area filter) while the detection count and bounding boxes
do come from the candidates passing both filters; when no candidate
survives the confidence filter but raw detections exist, the reported
confidence is that of the FIRST raw detection (the first BlazeFace
prediction's probability, or the first raw person's score), with
hasHuman false and count 0 rather than a hard error. -/
theorem classifier_confidence_reporting (imgW imgH minConfidence : ℚ)
    (maxFaces : ℕ) (facePreds : List FacePred) (cocoPreds : List CocoPred) :
    (facePreds ≠ [] → blazeValidFaces minConfidence maxFaces facePreds ≠ [] →
      (detectFacesWithBlazeFace imgW imgH minConfidence maxFaces facePreds).confidence =
          maxBoxConfidence (blazeValidFaces minConfidence maxFaces facePreds) ∧
      (detectFacesWithBlazeFace imgW imgH minConfidence maxFaces facePreds).detectionCount =
          (blazeValidSizedFaces (imgW * imgH)
            (blazeValidFaces minConfidence maxFaces facePreds)).length ∧
      (detectFacesWithBlazeFace imgW imgH minConfidence maxFaces facePreds).boundingBoxes =
          blazeValidSizedFaces (imgW * imgH)
            (blazeValidFaces minConfidence maxFaces facePreds)) ∧
    (facePreds ≠ [] → blazeValidFaces minConfidence maxFaces facePreds = [] →
      (detectFacesWithBlazeFace imgW imgH minConfidence maxFaces facePreds).hasHuman = false ∧
      (detectFacesWithBlazeFace imgW imgH minConfidence maxFaces facePreds).confidence =
          (facePreds.head?.bind (fun p => p.probability)).getD 0 ∧
      (detectFacesWithBlazeFace imgW imgH minConfidence maxFaces facePreds).detectionCount
          = 0) ∧
    (cocoPersonDetections minConfidence cocoPreds ≠ [] →
      (detectPersonWithCocoSsd imgW imgH minConfidence cocoPreds).confidence =
          maxBoxConfidence ((cocoPersonDetections minConfidence cocoPreds).map cocoBox) ∧
      (detectPersonWithCocoSsd imgW imgH minConfidence cocoPreds).detectionCount =
          (cocoReasonablePersons (imgW * imgH)
            ((cocoPersonDetections minConfidence cocoPreds).map cocoBox)).length) ∧
    (∀ q qs, cocoPersonDetections minConfidence cocoPreds = [] →
      cocoPreds.filter (fun p => p.cls = "person") = q :: qs →
      (detectPersonWithCocoSsd imgW imgH minConfidence cocoPreds).hasHuman = false ∧
      (detectPersonWithCocoSsd imgW imgH minConfidence cocoPreds).confidence = q.score ∧
      (detectPersonWithCocoSsd imgW imgH minConfidence cocoPreds).detectionCount = 0) := by
  refine ⟨?_, ?_, ?_, ?_⟩
  · intro hne hvf
    have h1 : facePreds.isEmpty = false := by
      cases facePreds with
      | nil => exact absurd rfl hne
      | cons a l => rfl
    have h2 : (blazeValidFaces minConfidence maxFaces facePreds).isEmpty = false := by
      cases hv : blazeValidFaces minConfidence maxFaces facePreds with
      | nil => exact absurd hv hvf
      | cons a l => rfl
    refine ⟨?_, ?_, ?_⟩ <;> simp [detectFacesWithBlazeFace, h1, h2]
  · intro hne hvf
    have h1 : facePreds.isEmpty = false := by
      cases facePreds with
      | nil => exact absurd rfl hne
      | cons a l => rfl
    have h2 : (blazeValidFaces minConfidence maxFaces facePreds).isEmpty = true := by
      rw [hvf]; rfl
    refine ⟨?_, ?_, ?_⟩ <;> simp [detectFacesWithBlazeFace, h1, h2]
  · intro hne
    have h1 : (cocoPersonDetections minConfidence cocoPreds).isEmpty = false := by
      cases hv : cocoPersonDetections minConfidence cocoPreds with
      | nil => exact absurd hv hne
      | cons a l => rfl
    refine ⟨?_, ?_⟩ <;> simp [detectPersonWithCocoSsd, h1]
  · intro q qs hpd hraw
    have h1 : (cocoPersonDetections minConfidence cocoPreds).isEmpty = true := by
      rw [hpd]; rfl
    refine ⟨?_, ?_, ?_⟩ <;> simp [detectPersonWithCocoSsd, h1, hraw]

/-- C7 counterexample: two faces at confidences 0.9 (too small a box) and
0.7 (large box) with threshold 0.6: the kept candidates (both filters) are
only the 0.7 face, yet the returned confidence is 0.9 — the maximum over
the confidence-filtered candidates, not over the kept candidates. -/
theorem classifier_confidence_counterexample :
    (detectFacesWithBlazeFace 100 100 (6/10) 3
        [⟨0, 0, 5, 5, some (9/10)⟩, ⟨0, 0, 50, 50, some (7/10)⟩]).hasHuman = true ∧
    (detectFacesWithBlazeFace 100 100 (6/10) 3
        [⟨0, 0, 5, 5, some (9/10)⟩, ⟨0, 0, 50, 50, some (7/10)⟩]).confidence = 9/10 ∧
    (detectFacesWithBlazeFace 100 100 (6/10) 3
        [⟨0, 0, 5, 5, some (9/10)⟩, ⟨0, 0, 50, 50, some (7/10)⟩]).boundingBoxes =
      [⟨0, 0, 50, 50, 7/10⟩] ∧
    maxBoxConfidence [⟨0, 0, 50, 50, 7/10⟩] = 7/10 ∧
    ((9/10 : ℚ) = 7/10 → False) := by
  have hvf : blazeValidFaces (6/10) 3
      [⟨0, 0, 5, 5, some (9/10)⟩, ⟨0, 0, 50, 50, some (7/10)⟩] =
      [⟨0, 0, 5, 5, 9/10⟩, ⟨0, 0, 50, 50, 7/10⟩] := by
    norm_num [blazeValidFaces, facePredToBox, List.filter]
  have hvs : blazeValidSizedFaces (100 * 100) [⟨0, 0, 5, 5, 9/10⟩, ⟨0, 0, 50, 50, 7/10⟩] =
      [⟨0, 0, 50, 50, 7/10⟩] := by
    norm_num [blazeValidSizedFaces, List.filter]
  refine ⟨?_, ?_, ?_, ?_, by norm_num⟩ <;>
    simp [detectFacesWithBlazeFace, hvf, hvs, maxBoxConfidence, jsMax] <;> norm_num

/-- C7 witness: with one large valid face at confidence 0.8, the returned
confidence is the maximum over the confidence-filtered candidates. -/
theorem classifier_confidence_reporting_witness :
    (detectFacesWithBlazeFace 100 100 (6/10) 3 [⟨0, 0, 50, 50, some (8/10)⟩]).confidence =
      maxBoxConfidence (blazeValidFaces (6/10) 3 [⟨0, 0, 50, 50, some (8/10)⟩]) := by
  have h := classifier_confidence_reporting 100 100 (6/10) 3
    [⟨0, 0, 50, 50, some (8/10)⟩] []
  have hvf : blazeValidFaces (6/10) 3 [⟨0, 0, 50, 50, some (8/10)⟩] =
      [⟨0, 0, 50, 50, 8/10⟩] := by
    norm_num [blazeValidFaces, facePredToBox, List.filter]
  exact (h.1 (by simp) (by rw [hvf]; simp)).1

theorem foldl_jsMax_bounds (lo hi : ℚ) (l : List Box) :
    ∀ b : ℚ, lo ≤ b → b ≤ hi →
      (∀ x ∈ l, lo ≤ x.confidence ∧ x.confidence ≤ hi) →
      lo ≤ l.foldl (fun m f => jsMax m f.confidence) b ∧
        l.foldl (fun m f => jsMax m f.confidence) b ≤ hi := by
  induction l with
  | nil =>
    intro b h1 h2 _
    exact ⟨h1, h2⟩
  | cons x xs ih =>
    intro b h1 h2 hall
    simp only [List.foldl_cons]
    have hx := hall x (List.mem_cons_self x xs)
    refine ih (jsMax b x.confidence) ?_ ?_
      (fun y hy => hall y (List.mem_cons_of_mem x hy))
    · unfold jsMax
      by_cases hc : b ≤ x.confidence
      · rw [if_pos hc]; exact hx.1
      · rw [if_neg hc]; exact h1
    · unfold jsMax
      by_cases hc : b ≤ x.confidence
      · rw [if_pos hc]; exact hx.2
      · rw [if_neg hc]; exact h2

theorem maxBoxConfidence_bounds (lo hi : ℚ) (l : List Box) (hne : l ≠ [])
    (hall : ∀ x ∈ l, lo ≤ x.confidence ∧ x.confidence ≤ hi) :
    lo ≤ maxBoxConfidence l ∧ maxBoxConfidence l ≤ hi := by
  cases l with
  | nil => exact absurd rfl hne
  | cons b rest =>
    simp only [maxBoxConfidence]
    have hb := hall b (List.mem_cons_self b rest)
    exact foldl_jsMax_bounds lo hi rest b.confidence hb.1 hb.2
      (fun y hy => hall y (List.mem_cons_of_mem b hy))

theorem detectFacesWithBlazeFace_confidence_bounds (imgW imgH minConfidence : ℚ)
    (maxFaces : ℕ) (ps : List FacePred)
    (hp : ∀ p ∈ ps, ∀ q, p.probability = some q → 0 ≤ q ∧ q ≤ 1) :
    0 ≤ (detectFacesWithBlazeFace imgW imgH minConfidence maxFaces ps).confidence ∧
    (detectFacesWithBlazeFace imgW imgH minConfidence maxFaces ps).confidence ≤ 1 := by
  cases hps : ps.isEmpty with
  | true =>
    simp only [detectFacesWithBlazeFace, hps, if_true]
    norm_num
  | false =>
    cases hvf : (blazeValidFaces minConfidence maxFaces ps).isEmpty with
    | true =>
      simp only [detectFacesWithBlazeFace, hps, hvf, Bool.false_eq_true, if_false, if_true]
      cases ps with
      | nil => cases hps
      | cons p rest =>
        simp only [List.head?_cons]
        have hred : ((some p).bind fun p => p.probability) = p.probability := rfl
        rw [hred]
        cases hq2 : p.probability with
        | none => simp
        | some q =>
          simp only [Option.getD_some]
          exact hp p (List.mem_cons_self p rest) q hq2
    | false =>
      simp only [detectFacesWithBlazeFace, hps, hvf, Bool.false_eq_true, if_false]
      apply maxBoxConfidence_bounds
      · intro hnil
        rw [hnil] at hvf
        cases hvf
      · intro x hx
        rcases List.mem_filter.mp hx with ⟨hxm, _⟩
        rcases List.mem_map.mp hxm with ⟨p, hpm, hpx⟩
        have hpmem : p ∈ ps := List.take_subset maxFaces ps hpm
        subst hpx
        simp only [facePredToBox]
        cases hq : p.probability with
        | none => norm_num
        | some q =>
          simp only [Option.getD_some]
          exact hp p hpmem q hq

theorem detectPersonWithCocoSsd_confidence_bounds (imgW imgH minConfidence : ℚ)
    (qs : List CocoPred) (hq : ∀ p ∈ qs, 0 ≤ p.score ∧ p.score ≤ 1) :
    0 ≤ (detectPersonWithCocoSsd imgW imgH minConfidence qs).confidence ∧
    (detectPersonWithCocoSsd imgW imgH minConfidence qs).confidence ≤ 1 := by
  cases hpd : (cocoPersonDetections minConfidence qs).isEmpty with
  | true =>
    simp only [detectPersonWithCocoSsd, hpd, if_true]
    cases hall : qs.filter (fun p => p.cls = "person") with
    | nil => norm_num
    | cons p rest =>
      simp only
      have hpm : p ∈ qs := by
        have : p ∈ qs.filter (fun p => p.cls = "person") := by
          rw [hall]; exact List.mem_cons_self p rest
        exact (List.mem_filter.mp this).1
      exact hq p hpm
  | false =>
    simp only [detectPersonWithCocoSsd, hpd, Bool.false_eq_true, if_false]
    apply maxBoxConfidence_bounds
    · intro hnil
      have : (cocoPersonDetections minConfidence qs) = [] := by
        cases hv : cocoPersonDetections minConfidence qs with
        | nil => rfl
        | cons a l =>
          rw [hv] at hnil
          cases hnil
      rw [this] at hpd
      cases hpd
    · intro x hx
      rcases List.mem_map.mp hx with ⟨p, hpm, hpx⟩
      have hpmem : p ∈ qs := by
        have h1 := (List.mem_filter.mp hpm).1
        exact (List.mem_filter.mp h1).1
      subst hpx
      simp only [cocoBox]
      exact hq p hpmem

theorem detectFacesWithBlazeFace_count_le (imgW imgH minConfidence : ℚ)
    (maxFaces : ℕ) (ps : List FacePred) :
    (detectFacesWithBlazeFace imgW imgH minConfidence maxFaces ps).detectionCount
        ≤ maxFaces ∧
    (detectFacesWithBlazeFace imgW imgH minConfidence maxFaces ps).boundingBoxes.length
        ≤ maxFaces := by
  have hlen : (blazeValidSizedFaces (imgW * imgH)
      (blazeValidFaces minConfidence maxFaces ps)).length ≤ maxFaces := by
    calc (blazeValidSizedFaces (imgW * imgH)
          (blazeValidFaces minConfidence maxFaces ps)).length
        ≤ (blazeValidFaces minConfidence maxFaces ps).length :=
          List.length_filter_le _ _
      _ ≤ ((ps.take maxFaces).map facePredToBox).length :=
          List.length_filter_le _ _
      _ = (ps.take maxFaces).length := by rw [List.length_map]
      _ ≤ maxFaces := by
          rw [List.length_take]
          exact min_le_left _ _
  cases hps : ps.isEmpty with
  | true =>
    simp only [detectFacesWithBlazeFace, hps, if_true]
    simp
  | false =>
    cases hvf : (blazeValidFaces minConfidence maxFaces ps).isEmpty with
    | true =>
      simp only [detectFacesWithBlazeFace, hps, hvf, Bool.false_eq_true, if_false, if_true]
      simp
    | false =>
      simp only [detectFacesWithBlazeFace, hps, hvf, Bool.false_eq_true, if_false]
      exact ⟨hlen, hlen⟩

theorem detectHumanInImage_confidence_bounds (preferFaceDetection : Bool)
    (minConfidence : ℚ) (maxFaces : ℕ) (imgW imgH : ℚ)
    (facePreds : Except Unit (List FacePred))
    (cocoPreds : Except Unit (List CocoPred))
    (hf : ∀ ps, facePreds = Except.ok ps →
      ∀ p ∈ ps, ∀ q, p.probability = some q → 0 ≤ q ∧ q ≤ 1)
    (hc : ∀ qs, cocoPreds = Except.ok qs → ∀ p ∈ qs, 0 ≤ p.score ∧ p.score ≤ 1) :
    0 ≤ (detectHumanInImage preferFaceDetection minConfidence maxFaces imgW imgH
        facePreds cocoPreds).confidence ∧
    (detectHumanInImage preferFaceDetection minConfidence maxFaces imgW imgH
        facePreds cocoPreds).confidence ≤ 1 := by
  have hblaze : ∀ ps, facePreds = Except.ok ps →
      0 ≤ (detectFacesWithBlazeFace imgW imgH minConfidence maxFaces ps).confidence ∧
      (detectFacesWithBlazeFace imgW imgH minConfidence maxFaces ps).confidence ≤ 1 :=
    fun ps hps => detectFacesWithBlazeFace_confidence_bounds imgW imgH minConfidence
      maxFaces ps (hf ps hps)
  have hcoco : ∀ qs, cocoPreds = Except.ok qs →
      0 ≤ (detectPersonWithCocoSsd imgW imgH minConfidence qs).confidence ∧
      (detectPersonWithCocoSsd imgW imgH minConfidence qs).confidence ≤ 1 :=
    fun qs hqs => detectPersonWithCocoSsd_confidence_bounds imgW imgH minConfidence
      qs (hc qs hqs)
  have herr : (0:ℚ) ≤ detectionErrorResult.confidence ∧
      detectionErrorResult.confidence ≤ 1 := by norm_num [detectionErrorResult]
  cases preferFaceDetection with
  | true =>
    cases hfp : facePreds with
    | ok ps =>
      simp only [detectHumanInImage, if_true]
      by_cases hcond : ((detectFacesWithBlazeFace imgW imgH minConfidence maxFaces
          ps).hasHuman && decide (minConfidence ≤ (detectFacesWithBlazeFace imgW imgH
          minConfidence maxFaces ps).confidence)) = true
      · rw [if_pos hcond]
        exact hblaze ps hfp
      · rw [if_neg hcond]
        cases hcp : cocoPreds with
        | ok qs => exact hcoco qs hcp
        | error u => exact herr
    | error u =>
      simp only [detectHumanInImage, if_true]
      cases hcp : cocoPreds with
      | ok qs => exact hcoco qs hcp
      | error v => exact herr
  | false =>
    cases hcp : cocoPreds with
    | ok qs =>
      simp only [detectHumanInImage, Bool.false_eq_true, if_false]
      by_cases hcond : ((detectPersonWithCocoSsd imgW imgH minConfidence qs).hasHuman &&
          decide (minConfidence ≤ (detectPersonWithCocoSsd imgW imgH minConfidence
          qs).confidence)) = true
      · rw [if_pos hcond]
        exact hcoco qs hcp
      · rw [if_neg hcond]
        cases hfp : facePreds with
        | ok ps => exact hblaze ps hfp
        | error u => exact herr
    | error u =>
      simp only [detectHumanInImage, Bool.false_eq_true, if_false]
      cases hfp : facePreds with
      | ok ps => exact hblaze ps hfp
      | error v => exact herr

/-- C8 (amended): given underlying detector scores in [0,1], every
DetectionResult of the classifier has confidence in [0,1] on every path
(face-first, body-first, fallbacks, double-failure); the FACE detector caps
its detection count and bounding-box count at maxFaces, but the
person-detector path applies no maxFaces/maxResults cap (its count can
exceed the configured maximum, see the counterexample). -/
theorem detection_result_invariants (preferFaceDetection : Bool)
    (minConfidence : ℚ) (maxFaces : ℕ) (imgW imgH : ℚ)
    (facePreds : Except Unit (List FacePred))
    (cocoPreds : Except Unit (List CocoPred)) (ps : List FacePred)
    (hf : ∀ l, facePreds = Except.ok l →
      ∀ p ∈ l, ∀ q, p.probability = some q → 0 ≤ q ∧ q ≤ 1)
    (hc : ∀ l, cocoPreds = Except.ok l → ∀ p ∈ l, 0 ≤ p.score ∧ p.score ≤ 1) :
    (0 ≤ (detectHumanInImage preferFaceDetection minConfidence maxFaces imgW imgH
        facePreds cocoPreds).confidence ∧
      (detectHumanInImage preferFaceDetection minConfidence maxFaces imgW imgH
        facePreds cocoPreds).confidence ≤ 1) ∧
    ((detectFacesWithBlazeFace imgW imgH minConfidence maxFaces ps).detectionCount
        ≤ maxFaces ∧
      (detectFacesWithBlazeFace imgW imgH minConfidence maxFaces ps).boundingBoxes.length
        ≤ maxFaces) :=
  ⟨detectHumanInImage_confidence_bounds preferFaceDetection minConfidence maxFaces
      imgW imgH facePreds cocoPreds hf hc,
    detectFacesWithBlazeFace_count_le imgW imgH minConfidence maxFaces ps⟩

/-- C8 counterexample: in body-first mode with maxFaces 3 the person
detector keeps four qualifying persons, so the classifier returns a
DetectionResult with detection count 4 and 4 bounding boxes — the
configured maximum does not bound person-path results. -/
theorem detection_count_counterexample :
    (detectHumanInImage false (1/2) 3 100 100 (Except.ok [])
        (Except.ok [⟨"person", 9/10, 0, 0, 20, 25⟩, ⟨"person", 9/10, 0, 10, 20, 25⟩,
          ⟨"person", 9/10, 0, 20, 20, 25⟩,
          ⟨"person", 9/10, 0, 30, 20, 25⟩])).detectionCount = 4 ∧
    (detectHumanInImage false (1/2) 3 100 100 (Except.ok [])
        (Except.ok [⟨"person", 9/10, 0, 0, 20, 25⟩, ⟨"person", 9/10, 0, 10, 20, 25⟩,
          ⟨"person", 9/10, 0, 20, 20, 25⟩,
          ⟨"person", 9/10, 0, 30, 20, 25⟩])).boundingBoxes.length = 4 ∧
    3 < 4 := by
  refine ⟨?_, ?_, by norm_num⟩ <;>
    norm_num [detectHumanInImage, detectPersonWithCocoSsd, cocoPersonDetections,
      cocoReasonablePersons, cocoBox, maxBoxConfidence, jsMax, List.filter]

/-- C8 witness: a single valid face at confidence 0.8 in face-first mode
gives a confidence within [0,1] and a face-path count within maxFaces. -/
theorem detection_result_invariants_witness :
    (0 ≤ (detectHumanInImage true (6/10) 3 100 100
        (Except.ok [⟨0, 0, 50, 50, some (8/10)⟩]) (Except.ok [])).confidence ∧
      (detectHumanInImage true (6/10) 3 100 100
        (Except.ok [⟨0, 0, 50, 50, some (8/10)⟩]) (Except.ok [])).confidence ≤ 1) ∧
    ((detectFacesWithBlazeFace 100 100 (6/10) 3
        [⟨0, 0, 50, 50, some (8/10)⟩]).detectionCount ≤ 3 ∧
      (detectFacesWithBlazeFace 100 100 (6/10) 3
        [⟨0, 0, 50, 50, some (8/10)⟩]).boundingBoxes.length ≤ 3) := by
  apply detection_result_invariants
  · intro l hl p hp q hq
    rw [Except.ok.injEq] at hl
    subst hl
    simp only [List.mem_singleton] at hp
    subst hp
    simp only [Option.some.injEq] at hq
    subst hq
    norm_num
  · intro l hl p hp
    rw [Except.ok.injEq] at hl
    subst hl
    simp at hp

/-- C1 (amended): the run passes iff all four steps pass, and execution is
short-circuited — the steps after the first failure stay pending; when any
step fails, getFailedResult makes the overall confidence 0 (NOT the mean of
the confidences of the steps that had passed); only when all four steps
pass (each with nonzero confidence) is the overall confidence the
arithmetic mean of the passed steps' 0-1 scale confidences. -/
theorem pipeline_overall (o1 o2 o3 o4 : StepOutcome) :
    ((runFullVerification o1 o2 o3 o4).passed =
      (o1.passed && o2.passed && o3.passed && o4.passed)) ∧
    (o1.passed = false →
      (runFullVerification o1 o2 o3 o4).steps =
        [applyOutcome o1, pendingStep, pendingStep, pendingStep]) ∧
    (o1.passed = true → o2.passed = false →
      (runFullVerification o1 o2 o3 o4).steps =
        [applyOutcome o1, applyOutcome o2, pendingStep, pendingStep]) ∧
    (o1.passed = true → o2.passed = true → o3.passed = false →
      (runFullVerification o1 o2 o3 o4).steps =
        [applyOutcome o1, applyOutcome o2, applyOutcome o3, pendingStep]) ∧
    ((runFullVerification o1 o2 o3 o4).passed = false →
      (runFullVerification o1 o2 o3 o4).overallConfidence = 0) ∧
    (o1.passed = true → o2.passed = true → o3.passed = true → o4.passed = true →
      o1.confidence ≠ 0 → o2.confidence ≠ 0 → o3.confidence ≠ 0 →
      o4.confidence ≠ 0 →
      (runFullVerification o1 o2 o3 o4).overallConfidence =
          meanPassedConfidence (runFullVerification o1 o2 o3 o4).steps ∧
      (runFullVerification o1 o2 o3 o4).overallConfidence =
          (o1.confidence / 100 + o2.confidence / 100 + o3.confidence / 100 +
            o4.confidence / 100) / 4) := by
  cases h1 : o1.passed with
  | false =>
    refine ⟨?_, ?_, ?_, ?_, ?_, ?_⟩ <;>
      simp [runFullVerification, h1]
  | true =>
    cases h2 : o2.passed with
    | false =>
      refine ⟨?_, ?_, ?_, ?_, ?_, ?_⟩ <;>
        simp [runFullVerification, h1, h2]
    | true =>
      cases h3 : o3.passed with
      | false =>
        refine ⟨?_, ?_, ?_, ?_, ?_, ?_⟩ <;>
          simp [runFullVerification, h1, h2, h3]
      | true =>
        cases h4 : o4.passed with
        | false =>
          refine ⟨?_, ?_, ?_, ?_, ?_, ?_⟩ <;>
            simp [runFullVerification, h1, h2, h3, h4]
        | true =>
          have key : ∀ c : ℚ, c ≠ 0 → (c / 100 : ℚ) ≠ 0 :=
            fun c hc => div_ne_zero hc (by norm_num)
          refine ⟨?_, ?_, ?_, ?_, ?_, ?_⟩
          · simp [runFullVerification, h1, h2, h3, h4]
          · intro hcontra
            simp [h1] at hcontra
          · intro _ hcontra
            simp [h2] at hcontra
          · intro _ _ hcontra
            simp [h3] at hcontra
          · intro hcontra
            rw [show (runFullVerification o1 o2 o3 o4).passed = true by
              simp [runFullVerification, h1, h2, h3, h4]] at hcontra
            cases hcontra
          · intro _ _ _ _ hc1 hc2 hc3 hc4
            constructor
            · simp [runFullVerification, h1, h2, h3, h4, calculateOverallConfidence,
                meanPassedConfidence, applyOutcome, confTruthy, List.filter,
                key _ hc1, key _ hc2, key _ hc3, key _ hc4]
            · simp [runFullVerification, h1, h2, h3, h4, calculateOverallConfidence,
                applyOutcome, confTruthy, List.filter,
                key _ hc1, key _ hc2, key _ hc3, key _ hc4]
              ring

/-- C1 counterexample: a run whose first step passes with confidence 100
and whose second step fails has overall confidence 0 (getFailedResult),
while the arithmetic mean of the confidences of the steps that passed is 1
— for failed runs the overall confidence is not that mean. -/
theorem pipeline_overall_counterexample :
    (runFullVerification ⟨true, 100⟩ ⟨false, 0⟩ ⟨false, 0⟩ ⟨false, 0⟩).passed
        = false ∧
    (runFullVerification ⟨true, 100⟩ ⟨false, 0⟩ ⟨false, 0⟩
        ⟨false, 0⟩).overallConfidence = 0 ∧
    meanPassedConfidence (runFullVerification ⟨true, 100⟩ ⟨false, 0⟩ ⟨false, 0⟩
        ⟨false, 0⟩).steps = 1 ∧
    ((0:ℚ) = 1 → False) := by
  refine ⟨?_, ?_, ?_, by norm_num⟩ <;>
    norm_num [runFullVerification, meanPassedConfidence, applyOutcome, pendingStep,
      List.filter, show decide (StepStatus.failed = StepStatus.completed) = false from rfl,
      show decide (StepStatus.pending = StepStatus.completed) = false from rfl,
      show decide (StepStatus.completed = StepStatus.completed) = true from rfl]

/-- C1 witness: a run whose four steps pass with confidences 100, 90, 80,
70 passes overall and its overall confidence is the mean of the passed
steps' confidences, (1 + 0.9 + 0.8 + 0.7) / 4 = 0.85. -/
theorem pipeline_overall_witness :
    (runFullVerification ⟨true, 100⟩ ⟨true, 90⟩ ⟨true, 80⟩ ⟨true, 70⟩).passed
        = true ∧
    (runFullVerification ⟨true, 100⟩ ⟨true, 90⟩ ⟨true, 80⟩
        ⟨true, 70⟩).overallConfidence =
      meanPassedConfidence (runFullVerification ⟨true, 100⟩ ⟨true, 90⟩ ⟨true, 80⟩
        ⟨true, 70⟩).steps ∧
    (runFullVerification ⟨true, 100⟩ ⟨true, 90⟩ ⟨true, 80⟩
        ⟨true, 70⟩).overallConfidence = 17/20 := by
  have h := pipeline_overall ⟨true, 100⟩ ⟨true, 90⟩ ⟨true, 80⟩ ⟨true, 70⟩
  have hm := h.2.2.2.2.2 rfl rfl rfl rfl (by norm_num) (by norm_num) (by norm_num)
    (by norm_num)
  refine ⟨?_, hm.1, ?_⟩
  · rw [h.1]
    rfl
  · rw [hm.2]
    norm_num
